import Mathlib

/-!
Verification of the Homarr Navidrome web-player backend (`webplayer.py`).

The file shallowly embeds the five request handlers of the Flask service:
the Subsonic auth-token builder `subsonic_auth`, the cover-art proxy
`api_cover`, the range-aware audio proxy `api_stream`, and the two query
handlers `api_random_list` and `api_search`.  Python dictionaries/JSON
values are modelled by a `Json` inductive, Python exceptions by an
`Except PyErr` result, and the Flask response object by an explicit
status/header/body record.  The randomness of `secrets.token_hex(8)` is
modelled by passing the drawn bytes (resp. the resulting salt string)
as an explicit argument, and `hashlib.md5` by an abstract hash function
argument `md5_hex`, since both live outside the repository.
Each handler returns, besides its HTTP result, the list of upstream
requests it issued, so that claims about what is (not) sent upstream
are expressible.
-/

namespace Webplayer

/-- JSON values as produced by Python's `json` module: `None`, booleans,
numbers (the claims only involve integers), strings, lists and dicts
(association lists, first binding wins on lookup). -/
inductive Json where
  | null : Json
  | bool : Bool → Json
  | num : Int → Json
  | str : String → Json
  | arr : List Json → Json
  | obj : List (String × Json) → Json
deriving Repr

/-- Python truthiness (`bool(x)`): `None`, `False`, `0`, `""`, `[]`, `{}`
are falsy, everything else is truthy. -/
def pyTruthy : Json → Bool
  | .null => false
  | .bool b => b
  | .num n => n != 0
  | .str s => s != ""
  | .arr xs => !xs.isEmpty
  | .obj fs => !fs.isEmpty

/-- Python's `a or b` on JSON values. -/
def pyOr (a b : Json) : Json := if pyTruthy a then a else b

/-- Python's `d.get(key, default)` on a dict represented as an association
list. -/
def dget (fs : List (String × Json)) (k : String) (d : Json) : Json :=
  (fs.lookup k).getD d

/-- Field lookup on a JSON value that is expected to be an object
(observer used only in theorem statements). -/
def jget (j : Json) (k : String) : Option Json :=
  match j with
  | .obj fs => fs.lookup k
  | _ => none

/-- Python exceptions that the handlers can raise, plus Flask's
`abort(status, message)`.  An uncaught exception is turned into an
HTTP 500 response by Flask. -/
inductive PyErr where
  | attributeError : PyErr
  | typeError : PyErr
  | valueError : PyErr
  | httpAbort : Nat → String → PyErr
deriving Repr, DecidableEq

/-- `s.get(...)`: Python's `.get` only exists on dicts; on any other value
an `AttributeError` is raised. -/
def Json.asObj : Json → Except PyErr (List (String × Json))
  | .obj fs => .ok fs
  | _ => .error .attributeError

/-- Python `for x in j`: lists yield their elements, strings yield their
characters as one-character strings, dicts yield their keys; every other
value raises `TypeError` (not iterable). -/
def pyIter : Json → Except PyErr (List Json)
  | .arr xs => .ok xs
  | .str s => .ok (s.data.map fun c => Json.str (String.mk [c]))
  | .obj fs => .ok (fs.map fun p => Json.str p.1)
  | _ => .error .typeError

/-- Tail of a Python integer literal after its first digit: digits,
with single underscores allowed only between digits. -/
def pyDigitTail : List Char → Bool
  | [] => true
  | ['_'] => false
  | '_' :: c :: rest => c.isDigit && pyDigitTail rest
  | c :: rest => c.isDigit && pyDigitTail rest

/-- A nonempty run of decimal digits with single underscores between
digits, as accepted by Python's `int(...)` after sign stripping. -/
def pyDigitsValid : List Char → Bool
  | [] => false
  | c :: rest => c.isDigit && pyDigitTail rest

/-- Numeric value of a digit run, skipping underscores. -/
def digitsVal (cs : List Char) : Nat :=
  cs.foldl (fun a c => if c = '_' then a else a * 10 + (c.toNat - 48)) 0

/-- Python's `str.strip()` with no argument: remove leading and trailing
whitespace. -/
def pyStrip (s : String) : String :=
  String.mk (((s.data.dropWhile Char.isWhitespace).reverse.dropWhile Char.isWhitespace).reverse)

/-- Python's `int(s)` on a string: strip surrounding whitespace, optional
sign, then decimal digits (underscores allowed between digits); `none`
models the `ValueError` raised on any other input. -/
def pyInt (s : String) : Option Int :=
  let cs := (pyStrip s).data
  match cs with
  | '+' :: rest => if pyDigitsValid rest then some (digitsVal rest) else none
  | '-' :: rest => if pyDigitsValid rest then some (-(digitsVal rest : Int)) else none
  | _ => if pyDigitsValid cs then some ((digitsVal cs : Int)) else none

-- ------------------ Config and auth ------------------

/-- Process configuration read from the environment at startup
(`SUBSONIC_USER`/`NAVIDROME_USER`, `SUBSONIC_PASSWORD`/..., `SUBSONIC_VERSION`,
`SUBSONIC_CLIENT`).  An unset credential resolves to the empty string. -/
structure Config where
  user : String
  password : String
  version : String
  client : String

/-- `SUBSONIC_FORMAT = "json"` — the fixed response format. -/
def SUBSONIC_FORMAT : String := "json"

/-- The lowercase hex digit for `n < 16`, as produced by
`secrets.token_hex`. -/
def hexDigitChar (n : Nat) : Char :=
  if n < 10 then Char.ofNat (48 + n) else Char.ofNat (87 + n)

/-- Two lowercase hex digits of one byte. -/
def byteHex (b : Nat) : List Char := [hexDigitChar (b / 16), hexDigitChar (b % 16)]

/-- `secrets.token_hex` applied to the drawn random bytes: the salt is the
concatenation of the bytes' two-digit lowercase hex encodings.
`secrets.token_hex(8)` corresponds to a `bytes` argument of length 8. -/
def token_hex (bytes : List Nat) : String := String.mk (List.flatten (bytes.map byteHex))

/-- The query-parameter mapping built by `subsonic_auth` when credentials
are present: `{u, t, s, v, c, f}` with `t = md5_hex(password + salt)` and
`s = salt`. -/
def authParams (md5_hex : String → String) (cfg : Config) (salt : String) :
    List (String × Json) :=
  [("u", .str cfg.user), ("t", .str (md5_hex (cfg.password ++ salt))),
   ("s", .str salt), ("v", .str cfg.version), ("c", .str cfg.client),
   ("f", .str SUBSONIC_FORMAT)]

/-- The message passed to `abort(500, ...)` when credentials are missing. -/
def missingCredsMsg : String :=
  "SUBSONIC_USER and SUBSONIC_PASSWORD env vars must be set"

/-- `subsonic_auth()` (webplayer.py lines 65–82): abort with HTTP 500 when
either credential is empty, otherwise return the `{u,t,s,v,c,f}` mapping
computed from a freshly drawn `salt`.  `md5_hex` abstracts the
`hashlib.md5(...).hexdigest()` helper; `salt` is the value
`secrets.token_hex(8)` returned on this call. -/
def subsonic_auth (md5_hex : String → String) (cfg : Config) (salt : String) :
    Except PyErr (List (String × Json)) :=
  if cfg.user = "" ∨ cfg.password = "" then
    .error (.httpAbort 500 missingCredsMsg)
  else
    .ok (authParams md5_hex cfg salt)

-- ------------------ HTTP plumbing ------------------

/-- A GET request issued to the upstream Navidrome server: the REST
endpoint path, the query parameters, and the forwarded HTTP headers. -/
structure UpstreamReq where
  endpoint : String
  params : List (String × Json)
  headers : List (String × String)

/-- An upstream response to a proxied request: status code and headers
(headers as a partial map, `none` meaning the header is absent). -/
structure ProxyUpstream where
  status : Nat
  headers : String → Option String

/-- A Flask `Response` for the two streaming proxies: status plus header
map (the streamed body bytes pass through unmodified and carry no
claim-relevant structure). -/
structure ProxyResp where
  status : Nat
  headers : String → Option String

/-- `resp.headers[k] = v` (werkzeug `Headers.__setitem__`): set, replacing
any existing value. -/
def hset (hs : String → Option String) (k v : String) : String → Option String :=
  fun k2 => if k2 = k then some v else hs k2

/-- `resp.headers.setdefault(k, v)`: set only when the header is absent. -/
def hsetdefault (hs : String → Option String) (k v : String) : String → Option String :=
  fun k2 =>
    if k2 = k then
      match hs k with
      | some w => some w
      | none => some v
    else hs k2

/-- The headers a freshly constructed Flask `Response(gen(), status=...)`
carries: werkzeug pre-populates `Content-Type` with the default mimetype
`text/html; charset=utf-8`. -/
def flaskDefaultHeaders : String → Option String :=
  fun k => if k = "Content-Type" then some "text/html; charset=utf-8" else none

/-- The header-copy loop shared by both proxies:
`for h in names: v = upstream.headers.get(h); if v: resp.headers[h] = v`
(absent and empty values are skipped). -/
def copyHeaders (names : List String) (uh : String → Option String)
    (hs : String → Option String) : String → Option String :=
  match names with
  | [] => hs
  | h :: rest =>
    copyHeaders rest uh
      (match uh h with
       | some v => if v = "" then hs else hset hs h v
       | none => hs)

-- ------------------ API: Cover Art ------------------

/-- The header allow-list of `api_cover`. -/
def coverPassthrough : List String :=
  ["Content-Type", "Content-Length", "Cache-Control", "ETag",
   "Last-Modified", "Accept-Ranges"]

/-- `api_cover` (webplayer.py lines 107–138): fresh auth, one GET to
`/rest/getCoverArt`, stream the body through, copy the allow-listed
headers that upstream supplied, and `setdefault` `Content-Type` to
`image/jpeg`.  Returns the list of upstream requests issued together
with the handler's result. -/
def api_cover (md5_hex : String → String) (cfg : Config) (salt : String)
    (cover_id : String) (upstream : ProxyUpstream) :
    List UpstreamReq × Except PyErr ProxyResp :=
  match subsonic_auth md5_hex cfg salt with
  | .error e => ([], .error e)
  | .ok auth =>
    let req : UpstreamReq := ⟨"/rest/getCoverArt", auth ++ [("id", .str cover_id)], []⟩
    let hs := copyHeaders coverPassthrough upstream.headers flaskDefaultHeaders
    let hs2 := hsetdefault hs "Content-Type" "image/jpeg"
    ([req], .ok ⟨upstream.status, hs2⟩)

-- ------------------ API: Audio Stream ------------------

/-- The header allow-list of `api_stream`. -/
def streamPassthrough : List String :=
  ["Content-Type", "Content-Length", "Accept-Ranges", "Content-Range",
   "Cache-Control", "ETag", "Last-Modified", "Content-Disposition"]

/-- `api_stream` (webplayer.py lines 144–190): fresh auth, forward the
client's `Range` header verbatim when it is present and truthy, one GET
to `/rest/download`, reflect upstream's status, copy the allow-listed
headers, and `setdefault` `Accept-Ranges: bytes` and
`Content-Type: audio/mpeg`.  `rng` is `request.headers.get("Range")`. -/
def api_stream (md5_hex : String → String) (cfg : Config) (salt : String)
    (song_id : String) (rng : Option String) (upstream : ProxyUpstream) :
    List UpstreamReq × Except PyErr ProxyResp :=
  match subsonic_auth md5_hex cfg salt with
  | .error e => ([], .error e)
  | .ok auth =>
    let sendHeaders : List (String × String) :=
      match rng with
      | some r => if r = "" then [] else [("Range", r)]
      | none => []
    let req : UpstreamReq := ⟨"/rest/download", auth ++ [("id", .str song_id)], sendHeaders⟩
    let hs := copyHeaders streamPassthrough upstream.headers flaskDefaultHeaders
    let hs2 := hsetdefault hs "Accept-Ranges" "bytes"
    let hs3 := hsetdefault hs2 "Content-Type" "audio/mpeg"
    ([req], .ok ⟨upstream.status, hs3⟩)

-- ------------------ API: query handlers ------------------

/-- A Flask JSON response of the query handlers: status and JSON body. -/
structure HttpResp where
  status : Nat
  body : Json

/-- The `jsonify(success=False, error="Upstream invalid JSON")` body. -/
def errJson : Json :=
  .obj [("success", .bool false), ("error", .str "Upstream invalid JSON")]

/-- The `jsonify(success=False, error="No query")` body. -/
def noQueryJson : Json :=
  .obj [("success", .bool false), ("error", .str "No query")]

/-- One song projected to the UI shape (the dict literal built in the
loop bodies of `api_random_list` and `api_search`):
`{"id": s.get("id"), "title": s.get("title", "Unknown"),
  "artist": s.get("artist", "Unknown"),
  "coverArt": s.get("coverArt") or s.get("id")}`. -/
def songSummary (fs : List (String × Json)) : Json :=
  .obj [("id", dget fs "id" .null),
        ("title", dget fs "title" (.str "Unknown")),
        ("artist", dget fs "artist" (.str "Unknown")),
        ("coverArt", pyOr (dget fs "coverArt" .null) (dget fs "id" .null))]

/-- Project one iterated element `s`: Python's `s.get(...)` raises
`AttributeError` unless `s` is a dict. -/
def projectSong (s : Json) : Except PyErr Json := do
  let fs ← s.asObj
  .ok (songSummary fs)

/-- The projection loop shared verbatim by both query handlers
(webplayer.py lines 219–230 and 265–276): skip falsy entries, project
the rest. -/
def buildPayload : List Json → Except PyErr (List Json)
  | [] => .ok []
  | s :: rest =>
    if pyTruthy s then do
      let p ← projectSong s
      let ps ← buildPayload rest
      .ok (p :: ps)
    else buildPayload rest

/-- The shared tail of both query handlers, applied to the raw `song`
field: `songs = songs or []`, `if isinstance(songs, dict): songs = [songs]`,
then the projection loop. -/
def songsPayload (songs0 : Json) : Except PyErr (List Json) := do
  let songs1 := if pyTruthy songs0 then songs0 else Json.arr []
  let songs2 := match songs1 with
    | .obj fs => Json.arr [.obj fs]
    | x => x
  let items ← pyIter songs2
  buildPayload items

/-- `api_random_list` (webplayer.py lines 196–232).  `sizeArg` is the raw
`size` query argument; `upstream` is the upstream body, `none` when
`r.json()` raises (invalid JSON).  The `try` block catches both the JSON
parse and `.get("subsonic-response", {})`, so any non-dict upstream body
also lands in the 502 branch; everything after the `try` can raise and
then surfaces as an uncaught exception (HTTP 500). -/
def api_random_list (md5_hex : String → String) (cfg : Config) (salt : String)
    (sizeArg : Option String) (upstream : Option Json) :
    List UpstreamReq × Except PyErr HttpResp :=
  let size : Int :=
    match sizeArg with
    | none => 30
    | some s => (pyInt s).getD 30
  match subsonic_auth md5_hex cfg salt with
  | .error e => ([], .error e)
  | .ok auth =>
    let req : UpstreamReq := ⟨"/rest/getRandomSongs", auth ++ [("size", .num size)], []⟩
    let result : Except PyErr HttpResp :=
      match upstream with
      | some (.obj fs) => do
          let js := dget fs "subsonic-response" (.obj [])
          let jsFs ← js.asObj
          let rs := dget jsFs "randomSongs" (.obj [])
          let rsFs ← rs.asObj
          let songs0 := dget rsFs "song" (.arr [])
          let payload ← songsPayload songs0
          .ok ⟨200, .obj [("success", .bool true), ("songs", .arr payload)]⟩
      | _ => .ok ⟨502, errJson⟩
    ([req], result)

/-- `api_search` (webplayer.py lines 238–278).  `queryArg` and `scArg` are
the raw `query` and `songCount` query arguments.  The `query` check runs
before auth; `subsonic_auth()` is evaluated before the parameter dict, so
a credential abort precedes the unguarded `int(...)` of `songCount`,
whose `ValueError` is not caught. -/
def api_search (md5_hex : String → String) (cfg : Config) (salt : String)
    (queryArg scArg : Option String) (upstream : Option Json) :
    List UpstreamReq × Except PyErr HttpResp :=
  let q := pyStrip (queryArg.getD "")
  if q = "" then ([], .ok ⟨400, noQueryJson⟩)
  else
    match subsonic_auth md5_hex cfg salt with
    | .error e => ([], .error e)
    | .ok auth =>
      let songCount : Except PyErr Int :=
        match scArg with
        | none => .ok 25
        | some s =>
          match pyInt s with
          | some n => .ok n
          | none => .error .valueError
      match songCount with
      | .error e => ([], .error e)
      | .ok sc =>
        let req : UpstreamReq :=
          ⟨"/rest/search3",
           auth ++ [("query", .str q), ("songCount", .num sc),
                    ("albumCount", .num 0), ("artistCount", .num 0)], []⟩
        let result : Except PyErr HttpResp :=
          match upstream with
          | some (.obj fs) => do
              let js := dget fs "subsonic-response" (.obj [])
              let jsFs ← js.asObj
              let res0 := dget jsFs "searchResult3" (.obj [])
              let res1 := if pyTruthy res0 then res0 else Json.obj []
              let resFs ← res1.asObj
              let songs0 := dget resFs "song" (.arr [])
              let results ← songsPayload songs0
              .ok ⟨200, .obj [("success", .bool true), ("results", .arr results)]⟩
          | _ => .ok ⟨502, errJson⟩
        ([req], result)

-- ------------------ Observers for theorem statements ------------------

/-- The HTTP status a client observes: Flask maps `abort(s, msg)` to `s`
and any uncaught exception to 500. -/
def respStatus : Except PyErr HttpResp → Nat
  | .ok r => r.status
  | .error (.httpAbort s _) => s
  | .error _ => 500

/-- Whether the upstream body parses as the expected JSON envelope: valid
JSON whose top-level value is an object (exactly what the handlers'
`try` block requires to succeed). -/
def envelopeOk : Option Json → Bool
  | some (.obj _) => true
  | _ => false

/-- A handler outcome that surfaces failure: an uncaught exception or
abort (an HTTP error status), or a response whose `success` field is
`false` with an error status; the only other outcome is a 200 response
with `success = true`. -/
def surfacedB (r : Except PyErr HttpResp) : Bool :=
  match r with
  | .error _ => true
  | .ok resp =>
    match jget resp.body "success" with
    | some (.bool true) => decide (resp.status = 200)
    | some (.bool false) => decide (400 ≤ resp.status)
    | _ => false

/-- An entry of the raw song list that is a dict or falsy (the handlers
raise on truthy non-dict entries, which a Subsonic server never sends). -/
def dictOrFalsy : Json → Bool
  | .obj _ => true
  | j => !pyTruthy j

/-- Total version of the projection, used to state what the loop produces
on dict entries. -/
def songSummaryOf : Json → Json
  | .obj fs => songSummary fs
  | j => j

/-- The salt component (`"s"`) of an auth-builder result. -/
def authSalt (r : Except PyErr (List (String × Json))) : Option Json :=
  match r with
  | .ok ps => ps.lookup "s"
  | .error _ => none

/-- The token component (`"t"`) of an auth-builder result. -/
def authToken (r : Except PyErr (List (String × Json))) : Option Json :=
  match r with
  | .ok ps => ps.lookup "t"
  | .error _ => none

/-- The HTTP status a client of a proxy handler observes. -/
def proxyStatus : Except PyErr ProxyResp → Nat
  | .ok r => r.status
  | .error (.httpAbort s _) => s
  | .error _ => 500

/-- One response header of a proxy handler result. -/
def proxyHeader : Except PyErr ProxyResp → String → Option String
  | .ok r, k => r.headers k
  | .error _, _ => none

/-- The key list of a JSON object. -/
def jkeys : Json → List String
  | .obj l => l.map Prod.fst
  | _ => []

/-- Whether a raw `songCount` argument survives `int(...)` (absent
arguments use the integer default 25). -/
def scOk : Option String → Bool
  | none => true
  | some s => (pyInt s).isSome

/-- A well-formed `getRandomSongs` envelope whose `song` field is
`songs` (test fixture for the normalization claims). -/
def randomEnvelope (songs : Json) : Json :=
  .obj [("subsonic-response", .obj [("randomSongs", .obj [("song", songs)])])]

/-- A well-formed `search3` envelope whose `song` field is `songs`. -/
def searchEnvelope (songs : Json) : Json :=
  .obj [("subsonic-response", .obj [("searchResult3", .obj [("song", songs)])])]

-- ------------------ Theorems ------------------

theorem pyErr_bind_ok {α β : Type} (a : α) (f : α → Except PyErr β) :
    (Except.ok a >>= f : Except PyErr β) = f a := rfl

theorem pyErr_bind_error {α β : Type} (e : PyErr) (f : α → Except PyErr β) :
    (Except.error e >>= f : Except PyErr β) = .error e := rfl

theorem hexDigitChar_isHex :
    ∀ n, n < 16 → ((hexDigitChar n).isDigit || ('a' ≤ hexDigitChar n && hexDigitChar n ≤ 'f')) = true := by
  decide

theorem flatten_byteHex_length (bs : List Nat) :
    (List.flatten (bs.map byteHex)).length = 2 * bs.length := by
  induction bs with
  | nil => rfl
  | cons b rest ih =>
    simp only [List.map_cons, List.flatten_cons, List.length_append, ih, byteHex,
      List.length_cons, List.length_nil]
    omega

theorem token_hex_length (bytes : List Nat) (hlen : bytes.length = 8) :
    (token_hex bytes).length = 16 := by
  show (List.flatten (bytes.map byteHex)).length = 16
  rw [flatten_byteHex_length, hlen]

theorem token_hex_chars (bytes : List Nat) (hb : ∀ b ∈ bytes, b < 256) :
    ∀ c ∈ (token_hex bytes).data,
      (c.isDigit || ('a' ≤ c && c ≤ 'f')) = true := by
  intro c hc
  have hc2 : c ∈ List.flatten (bytes.map byteHex) := hc
  rw [List.mem_flatten] at hc2
  obtain ⟨l, hl, hcl⟩ := hc2
  rw [List.mem_map] at hl
  obtain ⟨b, hbmem, rfl⟩ := hl
  have hb256 := hb b hbmem
  simp only [byteHex, List.mem_cons, List.not_mem_nil, or_false] at hcl
  rcases hcl with rfl | rfl
  · exact hexDigitChar_isHex _ (Nat.div_lt_of_lt_mul (by omega))
  · exact hexDigitChar_isHex _ (Nat.mod_lt _ (by omega))

/-- Claim C4: with non-empty configured credentials, `subsonic_auth`
returns exactly the `{u, t, s, v, c, f}` mapping where `u` is the
configured user, `t = md5_hex(password ++ salt)`, `s` is the salt —
the hex encoding of the 8 freshly drawn random bytes, 16 lowercase hex
characters long — `v` the protocol version, `c` the client name and `f`
the fixed `"json"` response format. -/
theorem subsonic_auth_params_spec (md5_hex : String → String) (cfg : Config)
    (bytes : List Nat) (hu : cfg.user ≠ "") (hp : cfg.password ≠ "")
    (hlen : bytes.length = 8) (hb : ∀ b ∈ bytes, b < 256) :
    subsonic_auth md5_hex cfg (token_hex bytes) =
      .ok [("u", .str cfg.user),
           ("t", .str (md5_hex (cfg.password ++ token_hex bytes))),
           ("s", .str (token_hex bytes)),
           ("v", .str cfg.version),
           ("c", .str cfg.client),
           ("f", .str "json")] ∧
    (token_hex bytes).length = 16 ∧
    ∀ c ∈ (token_hex bytes).data, (c.isDigit || ('a' ≤ c && c ≤ 'f')) = true := by
  refine ⟨?_, token_hex_length bytes hlen, token_hex_chars bytes hb⟩
  simp [subsonic_auth, authParams, SUBSONIC_FORMAT, hu, hp]

theorem subsonic_auth_params_spec_witness :
    subsonic_auth (fun s => s) ⟨"admin", "hunter2", "1.16.1", "homarr-webplayer"⟩
        (token_hex [0, 17, 34, 51, 68, 85, 102, 255]) =
      .ok [("u", .str "admin"),
           ("t", .str ("hunter2" ++ token_hex [0, 17, 34, 51, 68, 85, 102, 255])),
           ("s", .str (token_hex [0, 17, 34, 51, 68, 85, 102, 255])),
           ("v", .str "1.16.1"),
           ("c", .str "homarr-webplayer"),
           ("f", .str "json")] ∧
    (token_hex [0, 17, 34, 51, 68, 85, 102, 255]).length = 16 ∧
    ∀ c ∈ (token_hex [0, 17, 34, 51, 68, 85, 102, 255]).data,
      (c.isDigit || ('a' ≤ c && c ≤ 'f')) = true :=
  subsonic_auth_params_spec (fun s => s) ⟨"admin", "hunter2", "1.16.1", "homarr-webplayer"⟩
    [0, 17, 34, 51, 68, 85, 102, 255] (by decide) (by decide) (by decide) (by decide)

/-- Claim C5: the auth builder memoizes nothing — its output is a function
of the salt drawn on that very call — so two consecutive builds under the
same configured credentials that draw distinct salts produce distinct
`s` components, distinct overall outputs, and (as soon as the hash does
not collide on the two salted passwords) distinct tokens. -/
theorem subsonic_auth_freshness (md5_hex : String → String) (cfg : Config)
    (s1 s2 : String) (hu : cfg.user ≠ "") (hp : cfg.password ≠ "") (hs : s1 ≠ s2) :
    authSalt (subsonic_auth md5_hex cfg s1) = some (.str s1) ∧
    authSalt (subsonic_auth md5_hex cfg s2) = some (.str s2) ∧
    authSalt (subsonic_auth md5_hex cfg s1) ≠ authSalt (subsonic_auth md5_hex cfg s2) ∧
    subsonic_auth md5_hex cfg s1 ≠ subsonic_auth md5_hex cfg s2 ∧
    (md5_hex (cfg.password ++ s1) ≠ md5_hex (cfg.password ++ s2) →
      authToken (subsonic_auth md5_hex cfg s1) ≠ authToken (subsonic_auth md5_hex cfg s2)) := by
  simp only [subsonic_auth, authParams, authSalt, authToken, hu, hp, or_self, if_neg,
    not_false_eq_true]
  refine ⟨?_, ?_, ?_, ?_, ?_⟩
  · simp [List.lookup]
  · simp [List.lookup]
  · simp [List.lookup, hs]
  · simp [hs]
  · intro ht
    simp [List.lookup, ht]

theorem subsonic_auth_freshness_witness :
    authSalt (subsonic_auth (fun s => s) ⟨"admin", "hunter2", "1.16.1", "homarr-webplayer"⟩ "00112233445566ff") =
      some (.str "00112233445566ff") ∧
    authSalt (subsonic_auth (fun s => s) ⟨"admin", "hunter2", "1.16.1", "homarr-webplayer"⟩ "ffeeddccbbaa9988") =
      some (.str "ffeeddccbbaa9988") ∧
    authSalt (subsonic_auth (fun s => s) ⟨"admin", "hunter2", "1.16.1", "homarr-webplayer"⟩ "00112233445566ff") ≠
      authSalt (subsonic_auth (fun s => s) ⟨"admin", "hunter2", "1.16.1", "homarr-webplayer"⟩ "ffeeddccbbaa9988") ∧
    subsonic_auth (fun s => s) ⟨"admin", "hunter2", "1.16.1", "homarr-webplayer"⟩ "00112233445566ff" ≠
      subsonic_auth (fun s => s) ⟨"admin", "hunter2", "1.16.1", "homarr-webplayer"⟩ "ffeeddccbbaa9988" ∧
    ((fun s => s) ("hunter2" ++ "00112233445566ff") ≠ (fun s => s) ("hunter2" ++ "ffeeddccbbaa9988") →
      authToken (subsonic_auth (fun s => s) ⟨"admin", "hunter2", "1.16.1", "homarr-webplayer"⟩ "00112233445566ff") ≠
        authToken (subsonic_auth (fun s => s) ⟨"admin", "hunter2", "1.16.1", "homarr-webplayer"⟩ "ffeeddccbbaa9988")) :=
  subsonic_auth_freshness (fun s => s) ⟨"admin", "hunter2", "1.16.1", "homarr-webplayer"⟩
    "00112233445566ff" "ffeeddccbbaa9988" (by decide) (by decide) (by decide)

/-- Claim C7: a request to `/api/search` whose `query` argument is missing
or trims to the empty string yields HTTP 400 with body
`{success: false, error: "No query"}` and issues no upstream request,
whatever the other arguments, credentials, and upstream state are. -/
theorem search_no_query_400 (md5_hex : String → String) (cfg : Config) (salt : String)
    (queryArg scArg : Option String) (upstream : Option Json)
    (h : pyStrip (queryArg.getD "") = "") :
    api_search md5_hex cfg salt queryArg scArg upstream = ([], .ok ⟨400, noQueryJson⟩) := by
  simp [api_search, h]

theorem search_no_query_400_witness :
    api_search (fun s => s) ⟨"admin", "hunter2", "1.16.1", "homarr-webplayer"⟩ "ab12"
      (some "   ") (some "5") (some (Json.obj [])) = ([], .ok ⟨400, noQueryJson⟩) :=
  search_no_query_400 (fun s => s) ⟨"admin", "hunter2", "1.16.1", "homarr-webplayer"⟩ "ab12"
    (some "   ") (some "5") (some (Json.obj [])) (by decide)

/-- Claim C9: `/api/random/list` always issues exactly one upstream
`getRandomSongs` request whose `size` parameter is the integer parse of
the `size` argument when that parse succeeds and 30 when the argument is
absent or unparseable — a malformed `size` never makes the handler
error. -/
theorem random_list_size_param (md5_hex : String → String) (cfg : Config) (salt : String)
    (sizeArg : Option String) (upstream : Option Json)
    (hu : cfg.user ≠ "") (hp : cfg.password ≠ "") :
    (api_random_list md5_hex cfg salt sizeArg upstream).1 =
      [⟨"/rest/getRandomSongs",
        authParams md5_hex cfg salt ++ [("size", .num ((sizeArg.bind pyInt).getD 30))], []⟩] := by
  cases sizeArg <;> simp [api_random_list, subsonic_auth, hu, hp]

theorem random_list_size_param_witness :
    (api_random_list (fun s => s) ⟨"admin", "hunter2", "1.16.1", "homarr-webplayer"⟩ "ab12"
        (some "not-a-number") none).1 =
      [⟨"/rest/getRandomSongs",
        authParams (fun s => s) ⟨"admin", "hunter2", "1.16.1", "homarr-webplayer"⟩ "ab12" ++
          [("size", .num 30)], []⟩] :=
  random_list_size_param (fun s => s) ⟨"admin", "hunter2", "1.16.1", "homarr-webplayer"⟩ "ab12"
    (some "not-a-number") none (by decide) (by decide)

/-- Claim C10: `/api/search` with a non-empty query and a `songCount`
argument that does not parse as an integer raises an uncaught
`ValueError` (surfacing as HTTP 500) before any upstream request,
whereas `/api/random/list` with the same malformed argument as `size`
silently falls back to 30 and proceeds. -/
theorem search_songcount_unguarded :
    api_search (fun s => s) ⟨"admin", "hunter2", "1.16.1", "homarr-webplayer"⟩ "ab12"
      (some "test") (some "abc") (some (Json.obj [])) = ([], .error .valueError) ∧
    respStatus (api_search (fun s => s) ⟨"admin", "hunter2", "1.16.1", "homarr-webplayer"⟩ "ab12"
      (some "test") (some "abc") (some (Json.obj []))).2 = 500 ∧
    (api_random_list (fun s => s) ⟨"admin", "hunter2", "1.16.1", "homarr-webplayer"⟩ "ab12"
        (some "abc") (some (Json.obj []))).1 =
      [⟨"/rest/getRandomSongs",
        authParams (fun s => s) ⟨"admin", "hunter2", "1.16.1", "homarr-webplayer"⟩ "ab12" ++
          [("size", .num 30)], []⟩] :=
  ⟨rfl, rfl, rfl⟩

/-- Claim C6 (counterexample): with both credentials empty, a request to
`/api/search` with a missing query returns HTTP 400 `{success:false,
error:"No query"}` — not the claimed 500 — because the query check runs
before the credential check. -/
theorem search_empty_query_skips_cred_check :
    api_search (fun s => s) ⟨"", "", "1.16.1", "homarr-webplayer"⟩ "ab12" none none none =
      ([], .ok ⟨400, noQueryJson⟩) ∧
    respStatus (api_search (fun s => s) ⟨"", "", "1.16.1", "homarr-webplayer"⟩ "ab12"
      none none none).2 = 400 :=
  ⟨rfl, rfl⟩

/-- Claim C6 (amended): with an empty configured username or password,
`api_cover`, `api_stream` and `api_random_list` abort with HTTP 500 and
the descriptive credentials message before issuing any upstream request,
and so does `api_search` whenever its query argument does not trim to
empty (an empty query is rejected with 400 before the credential check,
also without any upstream request). -/
theorem missing_creds_fail_fast_500 (md5_hex : String → String) (cfg : Config)
    (salt cid sid : String) (rng : Option String) (pu : ProxyUpstream)
    (sizeArg queryArg scArg : Option String) (upstream : Option Json)
    (h : cfg.user = "" ∨ cfg.password = "")
    (hq : pyStrip (queryArg.getD "") ≠ "") :
    api_cover md5_hex cfg salt cid pu = ([], .error (.httpAbort 500 missingCredsMsg)) ∧
    api_stream md5_hex cfg salt sid rng pu = ([], .error (.httpAbort 500 missingCredsMsg)) ∧
    api_random_list md5_hex cfg salt sizeArg upstream =
      ([], .error (.httpAbort 500 missingCredsMsg)) ∧
    api_search md5_hex cfg salt queryArg scArg upstream =
      ([], .error (.httpAbort 500 missingCredsMsg)) := by
  refine ⟨?_, ?_, ?_, ?_⟩ <;>
    simp [api_cover, api_stream, api_random_list, api_search, subsonic_auth, h, hq]

theorem missing_creds_fail_fast_500_witness :
    api_cover (fun s => s) ⟨"", "hunter2", "1.16.1", "homarr-webplayer"⟩ "ab12" "c7"
        ⟨200, fun _ => none⟩ = ([], .error (.httpAbort 500 missingCredsMsg)) ∧
    api_stream (fun s => s) ⟨"", "hunter2", "1.16.1", "homarr-webplayer"⟩ "ab12" "s9"
        (some "bytes=0-") ⟨200, fun _ => none⟩ = ([], .error (.httpAbort 500 missingCredsMsg)) ∧
    api_random_list (fun s => s) ⟨"", "hunter2", "1.16.1", "homarr-webplayer"⟩ "ab12"
        (some "5") (some (Json.obj [])) = ([], .error (.httpAbort 500 missingCredsMsg)) ∧
    api_search (fun s => s) ⟨"", "hunter2", "1.16.1", "homarr-webplayer"⟩ "ab12"
        (some "test") (some "5") (some (Json.obj [])) =
      ([], .error (.httpAbort 500 missingCredsMsg)) :=
  missing_creds_fail_fast_500 (fun s => s) ⟨"", "hunter2", "1.16.1", "homarr-webplayer"⟩
    "ab12" "c7" "s9" (some "bytes=0-") ⟨200, fun _ => none⟩ (some "5") (some "test") (some "5")
    (some (Json.obj [])) (by decide) (by decide)

theorem hsetdefault_ne (hs : String → Option String) (k v k2 : String) (h : k2 ≠ k) :
    hsetdefault hs k v k2 = hs k2 := by
  simp [hsetdefault, h]

theorem copyHeaders_not_mem (names : List String) (uh base : String → Option String)
    (k : String) (hk : k ∉ names) : copyHeaders names uh base k = base k := by
  induction names generalizing base with
  | nil => rfl
  | cons h rest ih =>
    have hkr : k ∉ rest := fun hm => hk (List.mem_cons_of_mem _ hm)
    have hkh : k ≠ h := fun he => hk (he ▸ List.mem_cons_self h rest)
    simp only [copyHeaders]
    rw [ih _ hkr]
    cases huh : uh h with
    | none => rfl
    | some v =>
      by_cases hv : v = ""
      · simp [hv]
      · simp [hv, hset, hkh]

theorem copyHeaders_mem (names : List String) (uh base : String → Option String)
    (k v : String) (hk : k ∈ names) (huk : uh k = some v) (hv : v ≠ "") :
    copyHeaders names uh base k = some v := by
  induction names generalizing base with
  | nil => cases hk
  | cons h rest ih =>
    by_cases hkr : k ∈ rest
    · simp only [copyHeaders]
      exact ih _ hkr
    · have hkh : k = h := by
        rcases List.mem_cons.mp hk with h1 | h2
        · exact h1
        · exact absurd h2 hkr
      subst hkh
      simp only [copyHeaders]
      rw [copyHeaders_not_mem rest uh _ k hkr, huk]
      simp [hv, hset]

/-- Claim C2: for `/api/stream/{id}` the client's `Range` header, when
supplied (and non-empty — an empty value is falsy in Python and thus not
forwarded), is sent upstream verbatim and no `Range` header is sent
otherwise; the response status equals the upstream status exactly; and a
non-empty upstream `Content-Range` header is copied to the response
unchanged.  No range arithmetic happens locally: the forwarded header
and the reflected header are the identical strings. -/
theorem stream_range_passthrough (md5_hex : String → String) (cfg : Config)
    (salt sid r v : String) (up : ProxyUpstream)
    (hu : cfg.user ≠ "") (hp : cfg.password ≠ "") (hr : r ≠ "")
    (hcr : up.headers "Content-Range" = some v) (hv : v ≠ "") :
    (api_stream md5_hex cfg salt sid none up).1 =
      [⟨"/rest/download", authParams md5_hex cfg salt ++ [("id", .str sid)], []⟩] ∧
    (api_stream md5_hex cfg salt sid (some r) up).1 =
      [⟨"/rest/download", authParams md5_hex cfg salt ++ [("id", .str sid)], [("Range", r)]⟩] ∧
    proxyStatus (api_stream md5_hex cfg salt sid none up).2 = up.status ∧
    proxyStatus (api_stream md5_hex cfg salt sid (some r) up).2 = up.status ∧
    proxyHeader (api_stream md5_hex cfg salt sid none up).2 "Content-Range" = some v ∧
    proxyHeader (api_stream md5_hex cfg salt sid (some r) up).2 "Content-Range" = some v := by
  have hcall : subsonic_auth md5_hex cfg salt = .ok (authParams md5_hex cfg salt) := by
    simp [subsonic_auth, hu, hp]
  have hcrfinal : ∀ rng, proxyHeader (api_stream md5_hex cfg salt sid rng up).2
      "Content-Range" = some v := by
    intro rng
    simp only [api_stream, hcall, proxyHeader]
    rw [hsetdefault_ne _ _ _ _ (by decide), hsetdefault_ne _ _ _ _ (by decide)]
    exact copyHeaders_mem _ _ _ _ _ (by simp [streamPassthrough]) hcr hv
  refine ⟨?_, ?_, ?_, ?_, hcrfinal none, hcrfinal (some r)⟩ <;>
    simp [api_stream, hcall, proxyStatus, hr]

theorem stream_range_passthrough_witness :
    (api_stream (fun s => s) ⟨"admin", "hunter2", "1.16.1", "homarr-webplayer"⟩ "ab12" "s9"
        none ⟨206, fun k => if k = "Content-Range" then some "bytes 100-199/1000" else none⟩).1 =
      [⟨"/rest/download",
        authParams (fun s => s) ⟨"admin", "hunter2", "1.16.1", "homarr-webplayer"⟩ "ab12" ++
          [("id", .str "s9")], []⟩] ∧
    (api_stream (fun s => s) ⟨"admin", "hunter2", "1.16.1", "homarr-webplayer"⟩ "ab12" "s9"
        (some "bytes=100-") ⟨206, fun k => if k = "Content-Range" then some "bytes 100-199/1000" else none⟩).1 =
      [⟨"/rest/download",
        authParams (fun s => s) ⟨"admin", "hunter2", "1.16.1", "homarr-webplayer"⟩ "ab12" ++
          [("id", .str "s9")], [("Range", "bytes=100-")]⟩] ∧
    proxyStatus (api_stream (fun s => s) ⟨"admin", "hunter2", "1.16.1", "homarr-webplayer"⟩ "ab12" "s9"
        none ⟨206, fun k => if k = "Content-Range" then some "bytes 100-199/1000" else none⟩).2 = 206 ∧
    proxyStatus (api_stream (fun s => s) ⟨"admin", "hunter2", "1.16.1", "homarr-webplayer"⟩ "ab12" "s9"
        (some "bytes=100-") ⟨206, fun k => if k = "Content-Range" then some "bytes 100-199/1000" else none⟩).2 = 206 ∧
    proxyHeader (api_stream (fun s => s) ⟨"admin", "hunter2", "1.16.1", "homarr-webplayer"⟩ "ab12" "s9"
        none ⟨206, fun k => if k = "Content-Range" then some "bytes 100-199/1000" else none⟩).2
      "Content-Range" = some "bytes 100-199/1000" ∧
    proxyHeader (api_stream (fun s => s) ⟨"admin", "hunter2", "1.16.1", "homarr-webplayer"⟩ "ab12" "s9"
        (some "bytes=100-") ⟨206, fun k => if k = "Content-Range" then some "bytes 100-199/1000" else none⟩).2
      "Content-Range" = some "bytes 100-199/1000" :=
  stream_range_passthrough (fun s => s) ⟨"admin", "hunter2", "1.16.1", "homarr-webplayer"⟩
    "ab12" "s9" "bytes=100-" "bytes 100-199/1000"
    ⟨206, fun k => if k = "Content-Range" then some "bytes 100-199/1000" else none⟩
    (by decide) (by decide) (by decide) (by decide) (by decide)

/-- Claim C8 (failing input): `api_cover` does propagate upstream's status
verbatim, but when upstream omits `Content-Type` the response carries
Flask's pre-populated default `text/html; charset=utf-8`, not the
intended `image/jpeg` — `Response(...)` always installs a `Content-Type`
header, so the `setdefault("Content-Type", "image/jpeg")` on line 137
never fires. -/
theorem cover_content_type_default_dead :
    proxyStatus (api_cover (fun s => s) ⟨"admin", "hunter2", "1.16.1", "homarr-webplayer"⟩
      "ab12" "c7" ⟨200, fun _ => none⟩).2 = 200 ∧
    proxyHeader (api_cover (fun s => s) ⟨"admin", "hunter2", "1.16.1", "homarr-webplayer"⟩
      "ab12" "c7" ⟨200, fun _ => none⟩).2 "Content-Type" = some "text/html; charset=utf-8" ∧
    proxyHeader (api_cover (fun s => s) ⟨"admin", "hunter2", "1.16.1", "homarr-webplayer"⟩
      "ab12" "c7" ⟨200, fun _ => none⟩).2 "Content-Type" ≠ some "image/jpeg" := by
  refine ⟨rfl, by decide, by decide⟩

theorem random_list_surfaced (md5_hex : String → String) (cfg : Config) (salt : String)
    (sizeArg : Option String) (up : Option Json) :
    surfacedB (api_random_list md5_hex cfg salt sizeArg up).2 = true := by
  unfold api_random_list
  cases hauth : subsonic_auth md5_hex cfg salt with
  | error e => simp [surfacedB]
  | ok auth =>
    cases up with
    | none => simp [surfacedB, errJson, jget, List.lookup]
    | some j =>
      cases j with
      | obj fs =>
        simp only []
        cases h1 : (dget fs "subsonic-response" (Json.obj [])).asObj with
        | error e => simp [h1, surfacedB, pyErr_bind_error]
        | ok jsFs =>
          cases h2 : (dget jsFs "randomSongs" (Json.obj [])).asObj with
          | error e => simp [h1, h2, surfacedB, pyErr_bind_ok, pyErr_bind_error]
          | ok rsFs =>
            cases h3 : songsPayload (dget rsFs "song" (Json.arr [])) with
            | error e => simp [h1, h2, h3, surfacedB, pyErr_bind_ok, pyErr_bind_error]
            | ok payload =>
              simp [h1, h2, h3, surfacedB, pyErr_bind_ok, jget, List.lookup]
      | null => simp [surfacedB, errJson, jget, List.lookup]
      | bool b => simp [surfacedB, errJson, jget, List.lookup]
      | num n => simp [surfacedB, errJson, jget, List.lookup]
      | str s => simp [surfacedB, errJson, jget, List.lookup]
      | arr xs => simp [surfacedB, errJson, jget, List.lookup]

theorem search_surfaced (md5_hex : String → String) (cfg : Config) (salt : String)
    (queryArg scArg : Option String) (up : Option Json) :
    surfacedB (api_search md5_hex cfg salt queryArg scArg up).2 = true := by
  unfold api_search
  by_cases hq : pyStrip (queryArg.getD "") = ""
  · simp [hq, surfacedB, noQueryJson, jget, List.lookup]
  · simp only [hq, if_neg, if_false]
    cases hauth : subsonic_auth md5_hex cfg salt with
    | error e => simp [surfacedB]
    | ok auth =>
      rcases hsc : (match scArg with
          | none => Except.ok (25 : Int)
          | some s =>
            match pyInt s with
            | some n => Except.ok n
            | none => Except.error PyErr.valueError) with e | sc
      · simp [hsc, surfacedB]
      · simp only [hsc]
        cases up with
        | none => simp [surfacedB, errJson, jget, List.lookup]
        | some j =>
          cases j with
          | obj fs =>
            simp only []
            cases h1 : (dget fs "subsonic-response" (Json.obj [])).asObj with
            | error e => simp [h1, surfacedB, pyErr_bind_error]
            | ok jsFs =>
              cases h2 : (if pyTruthy (dget jsFs "searchResult3" (Json.obj []))
                  then dget jsFs "searchResult3" (Json.obj []) else Json.obj []).asObj with
              | error e => simp [h1, h2, surfacedB, pyErr_bind_ok, pyErr_bind_error]
              | ok resFs =>
                cases h3 : songsPayload (dget resFs "song" (Json.arr [])) with
                | error e => simp [h1, h2, h3, surfacedB, pyErr_bind_ok, pyErr_bind_error]
                | ok results =>
                  simp [h1, h2, h3, surfacedB, pyErr_bind_ok, jget, List.lookup]
          | null => simp [surfacedB, errJson, jget, List.lookup]
          | bool b => simp [surfacedB, errJson, jget, List.lookup]
          | num n => simp [surfacedB, errJson, jget, List.lookup]
          | str s => simp [surfacedB, errJson, jget, List.lookup]
          | arr xs => simp [surfacedB, errJson, jget, List.lookup]

/-- Claim C1: whenever the upstream body of `/api/random/list` or
`/api/search` does not parse as the expected JSON envelope (invalid JSON,
or a top-level value that is not an object — exactly what the handlers'
`try` blocks require), the handler answers 502 with body
`{success:false, error:"Upstream invalid JSON"}`; and on every possible
input the outcome of either query handler is surfaced — an uncaught
exception (HTTP 500), an abort, or a response whose `success` field is
`false` with an error status — except for the genuine 200
`success:true` answer. -/
theorem query_bad_envelope_502 (md5_hex : String → String) (cfg : Config) (salt : String)
    (sizeArg queryArg scArg sizeArg2 queryArg2 scArg2 : Option String)
    (badUp anyUp : Option Json)
    (hu : cfg.user ≠ "") (hp : cfg.password ≠ "")
    (hbad : envelopeOk badUp = false)
    (hq : pyStrip (queryArg.getD "") ≠ "") (hsc : scOk scArg = true) :
    (api_random_list md5_hex cfg salt sizeArg badUp).2 = .ok ⟨502, errJson⟩ ∧
    (api_search md5_hex cfg salt queryArg scArg badUp).2 = .ok ⟨502, errJson⟩ ∧
    surfacedB (api_random_list md5_hex cfg salt sizeArg2 anyUp).2 = true ∧
    surfacedB (api_search md5_hex cfg salt queryArg2 scArg2 anyUp).2 = true := by
  have hauth : subsonic_auth md5_hex cfg salt = .ok (authParams md5_hex cfg salt) := by
    simp [subsonic_auth, hu, hp]
  refine ⟨?_, ?_, random_list_surfaced md5_hex cfg salt sizeArg2 anyUp,
    search_surfaced md5_hex cfg salt queryArg2 scArg2 anyUp⟩
  · cases badUp with
    | none => simp [api_random_list, hauth]
    | some j => cases j <;> simp_all [api_random_list, hauth, envelopeOk]
  · cases scArg with
    | none =>
      cases badUp with
      | none => simp [api_search, hq, hauth]
      | some j => cases j <;> simp_all [api_search, hq, hauth, envelopeOk]
    | some s =>
      cases hps : pyInt s with
      | none => simp [scOk, hps] at hsc
      | some n =>
        cases badUp with
        | none => simp [api_search, hq, hauth, hps]
        | some j => cases j <;> simp_all [api_search, hq, hauth, hps, envelopeOk]

theorem query_bad_envelope_502_witness :
    (api_random_list (fun s => s) ⟨"admin", "hunter2", "1.16.1", "homarr-webplayer"⟩ "ab12"
      (some "5") (some (Json.str "oops"))).2 = .ok ⟨502, errJson⟩ ∧
    (api_search (fun s => s) ⟨"admin", "hunter2", "1.16.1", "homarr-webplayer"⟩ "ab12"
      (some "test") (some "5") (some (Json.str "oops"))).2 = .ok ⟨502, errJson⟩ ∧
    surfacedB (api_random_list (fun s => s) ⟨"admin", "hunter2", "1.16.1", "homarr-webplayer"⟩
      "ab12" none none).2 = true ∧
    surfacedB (api_search (fun s => s) ⟨"admin", "hunter2", "1.16.1", "homarr-webplayer"⟩
      "ab12" none none none).2 = true :=
  query_bad_envelope_502 (fun s => s) ⟨"admin", "hunter2", "1.16.1", "homarr-webplayer"⟩ "ab12"
    (some "5") (some "test") (some "5") none none none (some (Json.str "oops")) none
    (by decide) (by decide) (by decide) (by decide) (by decide)

theorem buildPayload_dictOrFalsy (xs : List Json) (h : xs.all dictOrFalsy = true) :
    buildPayload xs = .ok ((xs.filter pyTruthy).map songSummaryOf) := by
  induction xs with
  | nil => rfl
  | cons x rest ih =>
    rw [List.all_cons, Bool.and_eq_true] at h
    obtain ⟨hx, hrest⟩ := h
    cases hxt : pyTruthy x with
    | false =>
      simp only [buildPayload, hxt, Bool.false_eq_true, if_false]
      rw [ih hrest]
      simp [List.filter_cons, hxt]
    | true =>
      have hobj : ∃ fs, x = Json.obj fs := by
        cases x <;> first
          | exact ⟨_, rfl⟩
          | simp_all [dictOrFalsy, pyTruthy]
      obtain ⟨fs, rfl⟩ := hobj
      simp only [buildPayload, hxt, if_true, projectSong, Json.asObj, pyErr_bind_ok]
      rw [ih hrest]
      simp [List.filter_cons, hxt, songSummaryOf, pyErr_bind_ok]

theorem songsPayload_list (xs : List Json) (h : xs.all dictOrFalsy = true) :
    songsPayload (.arr xs) = .ok ((xs.filter pyTruthy).map songSummaryOf) := by
  cases xs with
  | nil => rfl
  | cons x rest =>
    simp only [songsPayload, pyTruthy, List.isEmpty_cons, Bool.not_false, if_true, pyIter,
      pyErr_bind_ok]
    exact buildPayload_dictOrFalsy _ h

theorem songsPayload_single (fs : List (String × Json)) (hfs : fs ≠ []) :
    songsPayload (.obj fs) = .ok [songSummary fs] := by
  cases fs with
  | nil => exact absurd rfl hfs
  | cons p ps =>
    simp [songsPayload, pyTruthy, pyIter, buildPayload, projectSong, Json.asObj, pyErr_bind_ok]

theorem random_list_ok (md5_hex : String → String) (cfg : Config) (salt : String)
    (sizeArg : Option String) (songs : Json) (payload : List Json)
    (hu : cfg.user ≠ "") (hp : cfg.password ≠ "")
    (h : songsPayload songs = .ok payload) :
    (api_random_list md5_hex cfg salt sizeArg (some (randomEnvelope songs))).2 =
      .ok ⟨200, .obj [("success", .bool true), ("songs", .arr payload)]⟩ := by
  have hauth : subsonic_auth md5_hex cfg salt = .ok (authParams md5_hex cfg salt) := by
    simp [subsonic_auth, hu, hp]
  simp [api_random_list, hauth, randomEnvelope, dget, Json.asObj, pyErr_bind_ok, h, List.lookup]

theorem search_ok (md5_hex : String → String) (cfg : Config) (salt : String)
    (queryArg scArg : Option String) (songs : Json) (payload : List Json)
    (hu : cfg.user ≠ "") (hp : cfg.password ≠ "")
    (hq : pyStrip (queryArg.getD "") ≠ "") (hsc : scOk scArg = true)
    (h : songsPayload songs = .ok payload) :
    (api_search md5_hex cfg salt queryArg scArg (some (searchEnvelope songs))).2 =
      .ok ⟨200, .obj [("success", .bool true), ("results", .arr payload)]⟩ := by
  have hauth : subsonic_auth md5_hex cfg salt = .ok (authParams md5_hex cfg salt) := by
    simp [subsonic_auth, hu, hp]
  cases scArg with
  | none =>
    simp [api_search, hq, hauth, searchEnvelope, dget, Json.asObj, pyErr_bind_ok, h,
      List.lookup, pyTruthy]
  | some s =>
    cases hps : pyInt s with
    | none => simp [scOk, hps] at hsc
    | some n =>
      simp [api_search, hq, hauth, hps, searchEnvelope, dget, Json.asObj, pyErr_bind_ok, h,
        List.lookup, pyTruthy]

/-- Claim C3: in both query handlers, a parsed envelope whose inner `song`
field is a single (non-empty) object is normalized to a one-element
list; a `song` list has its null/empty (falsy) entries dropped and every
remaining song projected by `songSummary`; and the projection produces
exactly the keys `id`, `title`, `artist`, `coverArt`, with `title` and
`artist` defaulting to `"Unknown"` when absent and `coverArt` falling
back to the song's `id` when absent. -/
theorem song_normalization_projection (md5_hex : String → String) (cfg : Config)
    (salt : String) (sizeArg queryArg scArg : Option String)
    (fs : List (String × Json)) (xs : List Json)
    (hu : cfg.user ≠ "") (hp : cfg.password ≠ "")
    (hq : pyStrip (queryArg.getD "") ≠ "") (hsc : scOk scArg = true)
    (hfs : fs ≠ []) (hxs : xs.all dictOrFalsy = true)
    (ht : fs.lookup "title" = none) (ha : fs.lookup "artist" = none)
    (hc : fs.lookup "coverArt" = none) :
    (api_random_list md5_hex cfg salt sizeArg (some (randomEnvelope (.obj fs)))).2 =
      .ok ⟨200, .obj [("success", .bool true), ("songs", .arr [songSummary fs])]⟩ ∧
    (api_search md5_hex cfg salt queryArg scArg (some (searchEnvelope (.obj fs)))).2 =
      .ok ⟨200, .obj [("success", .bool true), ("results", .arr [songSummary fs])]⟩ ∧
    (api_random_list md5_hex cfg salt sizeArg (some (randomEnvelope (.arr xs)))).2 =
      .ok ⟨200, .obj [("success", .bool true),
        ("songs", .arr ((xs.filter pyTruthy).map songSummaryOf))]⟩ ∧
    (api_search md5_hex cfg salt queryArg scArg (some (searchEnvelope (.arr xs)))).2 =
      .ok ⟨200, .obj [("success", .bool true),
        ("results", .arr ((xs.filter pyTruthy).map songSummaryOf))]⟩ ∧
    jkeys (songSummary fs) = ["id", "title", "artist", "coverArt"] ∧
    jget (songSummary fs) "title" = some (.str "Unknown") ∧
    jget (songSummary fs) "artist" = some (.str "Unknown") ∧
    jget (songSummary fs) "coverArt" = jget (songSummary fs) "id" := by
  refine ⟨random_list_ok md5_hex cfg salt sizeArg _ _ hu hp (songsPayload_single fs hfs),
    search_ok md5_hex cfg salt queryArg scArg _ _ hu hp hq hsc (songsPayload_single fs hfs),
    random_list_ok md5_hex cfg salt sizeArg _ _ hu hp (songsPayload_list xs hxs),
    search_ok md5_hex cfg salt queryArg scArg _ _ hu hp hq hsc (songsPayload_list xs hxs),
    ?_, ?_, ?_, ?_⟩
  · simp [jkeys, songSummary]
  · simp [jget, songSummary, List.lookup, dget, ht]
  · simp [jget, songSummary, List.lookup, dget, ha]
  · simp [jget, songSummary, List.lookup, dget, hc, pyOr, pyTruthy]

theorem song_normalization_projection_witness :
    (api_random_list (fun s => s) ⟨"admin", "hunter2", "1.16.1", "homarr-webplayer"⟩ "ab12"
      (some "5") (some (randomEnvelope (.obj [("id", Json.str "s7")])))).2 =
      .ok ⟨200, .obj [("success", .bool true),
        ("songs", .arr [songSummary [("id", Json.str "s7")]])]⟩ ∧
    (api_search (fun s => s) ⟨"admin", "hunter2", "1.16.1", "homarr-webplayer"⟩ "ab12"
      (some "test") (some "5") (some (searchEnvelope (.obj [("id", Json.str "s7")])))).2 =
      .ok ⟨200, .obj [("success", .bool true),
        ("results", .arr [songSummary [("id", Json.str "s7")]])]⟩ ∧
    (api_random_list (fun s => s) ⟨"admin", "hunter2", "1.16.1", "homarr-webplayer"⟩ "ab12"
      (some "5") (some (randomEnvelope
        (.arr [Json.null, Json.obj [("id", Json.str "s1")], Json.arr [], Json.str ""])))).2 =
      .ok ⟨200, .obj [("success", .bool true),
        ("songs", .arr (([Json.null, Json.obj [("id", Json.str "s1")], Json.arr [],
          Json.str ""].filter pyTruthy).map songSummaryOf))]⟩ ∧
    (api_search (fun s => s) ⟨"admin", "hunter2", "1.16.1", "homarr-webplayer"⟩ "ab12"
      (some "test") (some "5") (some (searchEnvelope
        (.arr [Json.null, Json.obj [("id", Json.str "s1")], Json.arr [], Json.str ""])))).2 =
      .ok ⟨200, .obj [("success", .bool true),
        ("results", .arr (([Json.null, Json.obj [("id", Json.str "s1")], Json.arr [],
          Json.str ""].filter pyTruthy).map songSummaryOf))]⟩ ∧
    jkeys (songSummary [("id", Json.str "s7")]) = ["id", "title", "artist", "coverArt"] ∧
    jget (songSummary [("id", Json.str "s7")]) "title" = some (.str "Unknown") ∧
    jget (songSummary [("id", Json.str "s7")]) "artist" = some (.str "Unknown") ∧
    jget (songSummary [("id", Json.str "s7")]) "coverArt" =
      jget (songSummary [("id", Json.str "s7")]) "id" :=
  song_normalization_projection (fun s => s) ⟨"admin", "hunter2", "1.16.1", "homarr-webplayer"⟩
    "ab12" (some "5") (some "test") (some "5") [("id", Json.str "s7")]
    [Json.null, Json.obj [("id", Json.str "s1")], Json.arr [], Json.str ""]
    (by decide) (by decide) (by decide) (by decide) (List.cons_ne_nil _ _) (by decide)
    rfl rfl rfl

end Webplayer
